import Mathlib

/-!
Shallow embedding of `catalog/models.py` of the locallibrary repository:
the five entity definitions (Genre, Language, Book, BookInstance, Author),
their field-level validation constraints, the rendering and URL helper
methods, the declared default orderings, and the `on_delete=SET_NULL`
referential-integrity behaviour declared on the three nullable foreign
keys.  Dates and primary keys are abstracted as naturals; a relational
database state is a record of association lists keyed by primary key.
-/

namespace LocalLibrary

/-- Entity `Genre`: one field `name = CharField(max_length=200)`. -/
structure Genre where
  name : String
  deriving DecidableEq

/-- Entity `Language`: one field `name = CharField(max_length=200)`. -/
structure Language where
  name : String
  deriving DecidableEq

/-- Entity `Author`: `first_name`, `last_name` (`CharField(max_length=100)`),
`date_of_birth`, `date_of_death` (`DateField(null=True, blank=True)`).
Dates are abstracted as naturals. -/
structure Author where
  first_name : String
  last_name : String
  date_of_birth : Option Nat
  date_of_death : Option Nat
  deriving DecidableEq

/-- Entity `Book`: `title = CharField(max_length=200)`,
`author = ForeignKey("Author", on_delete=SET_NULL, null=True)` (a nullable
primary-key reference), `summary = TextField(max_length=1000)`,
`isbn = CharField("ISBN", max_length=13)`,
`genre = ManyToManyField(Genre)` (a set of Genre primary keys),
`language = ForeignKey("Language", on_delete=SET_NULL, null=True)`. -/
structure Book where
  title : String
  author : Option Nat
  summary : String
  isbn : String
  genre : List Nat
  language : Option Nat
  deriving DecidableEq

/-- Entity `BookInstance`: `id = UUIDField(primary_key=True, default=uuid.uuid4)`
(the UUID abstracted as a natural),
`book = ForeignKey("Book", on_delete=SET_NULL, null=True)`,
`imprint = CharField(max_length=200)`,
`due_back = DateField(null=True, blank=True)`,
`status = CharField(max_length=1, choices=LOAN_STATUS, blank=True, default="m")`. -/
structure BookInstance where
  id : Nat
  book : Option Nat
  imprint : String
  due_back : Option Nat
  status : String
  deriving DecidableEq

/-- The database state owned by the persistence engine: one table per entity.
Genre, Language, Author and Book rows carry an engine-generated integer
primary key; a BookInstance is keyed by its own `id` field. -/
structure DB where
  genres : List (Nat × Genre)
  languages : List (Nat × Language)
  authors : List (Nat × Author)
  books : List (Nat × Book)
  bookinstances : List BookInstance
  deriving DecidableEq

/-- Method `Genre.__str__`: `return self.name`. -/
def Genre.toStr (g : Genre) : String := g.name

/-- Method `Language.__str__`: `return self.name`. -/
def Language.toStr (l : Language) : String := l.name

/-- Method `Book.__str__`: `return self.title`. -/
def Book.toStr (b : Book) : String := b.title

/-- Method `Author.__str__`: the f-string of `self.last_name`, a comma and a
space, then `self.first_name`. -/
def Author.toStr (a : Author) : String := a.last_name ++ ", " ++ a.first_name

/-- Resolution of a Book primary key against the books table. -/
def DB.getBook (db : DB) (pk : Nat) : Option Book :=
  (db.books.find? (fun p => p.1 == pk)).map (fun p => p.2)

/-- Method `BookInstance.__str__`: the f-string of `self.id`, then
`self.book.title` in parentheses.  `self.book` is the related `Book` row or
`None`; reading `.title` on `None` raises an `AttributeError` instead of
returning a string, which the embedding records as `none`. -/
def BookInstance.toStr (db : DB) (bi : BookInstance) : Option String :=
  match bi.book with
  | none => none
  | some pk => (db.getBook pk).map (fun b => toString bi.id ++ " (" ++ b.title ++ ")")

/-- Effect of `on_delete=models.SET_NULL` on `Book.author` when the Author
with primary key `aid` is deleted: a book referencing it has its reference
set to null, every other field untouched. -/
def Book.onAuthorDelete (aid : Nat) (b : Book) : Book :=
  if b.author = some aid then { b with author := none } else b

/-- Effect of `on_delete=models.SET_NULL` on `Book.language`. -/
def Book.onLanguageDelete (lid : Nat) (b : Book) : Book :=
  if b.language = some lid then { b with language := none } else b

/-- Effect of `on_delete=models.SET_NULL` on `BookInstance.book`. -/
def BookInstance.onBookDelete (bpk : Nat) (bi : BookInstance) : BookInstance :=
  if bi.book = some bpk then { bi with book := none } else bi

/-- Deletion of the Author with primary key `aid`: the author row is removed
and every Book row has the `SET_NULL` rule applied to its `author` field. -/
def DB.deleteAuthor (db : DB) (aid : Nat) : DB :=
  { db with
    authors := db.authors.filter (fun p => p.1 != aid),
    books := db.books.map (fun p => (p.1, Book.onAuthorDelete aid p.2)) }

/-- Deletion of the Language with primary key `lid`. -/
def DB.deleteLanguage (db : DB) (lid : Nat) : DB :=
  { db with
    languages := db.languages.filter (fun p => p.1 != lid),
    books := db.books.map (fun p => (p.1, Book.onLanguageDelete lid p.2)) }

/-- Deletion of the Book with primary key `bpk`: the book row is removed and
every BookInstance row has the `SET_NULL` rule applied to its `book` field. -/
def DB.deleteBook (db : DB) (bpk : Nat) : DB :=
  { db with
    books := db.books.filter (fun p => p.1 != bpk),
    bookinstances := db.bookinstances.map (BookInstance.onBookDelete bpk) }

/-- The `LOAN_STATUS` choice tuples of `BookInstance.status`. -/
def LOAN_STATUS : List (String × String) :=
  [("m", "Maintenance"), ("o", "Emprunté"), ("a", "Disponible"), ("r", "Réservé")]

/-- Validation of a `BookInstance.status` value, from
`CharField(max_length=1, choices=LOAN_STATUS, blank=True)`: the value must
fit `max_length=1`, and it must be one of the declared choice codes unless
it is blank, which `blank=True` accepts. -/
def validStatus (s : String) : Bool :=
  decide (s.length ≤ 1) && (s == "" || LOAN_STATUS.any (fun c => c.1 == s))

/-- Field-level validation of a `BookInstance`: `status` as above and
`imprint = CharField(max_length=200)`, required and of bounded length. -/
def validBookInstance (bi : BookInstance) : Bool :=
  validStatus bi.status && bi.imprint != "" && decide (bi.imprint.length ≤ 200)

/-- Creation of a `BookInstance`: a construction in which an unsupplied
`status` takes the declared default `"m"`; the record persists only when it
passes field validation. -/
def BookInstance.create (id : Nat) (book : Option Nat) (imprint : String)
    (due_back : Option Nat) (status : Option String) : Option BookInstance :=
  let bi : BookInstance :=
    { id := id, book := book, imprint := imprint, due_back := due_back,
      status := status.getD "m" }
  if validBookInstance bi then some bi else none

/-- Update of the `status` field of an existing `BookInstance`, accepted only
when the updated record passes field validation. -/
def BookInstance.updateStatus (bi : BookInstance) (s : String) : Option BookInstance :=
  let bi' := { bi with status := s }
  if validBookInstance bi' then some bi' else none

/-- A sequence of status updates, each of which must be accepted. -/
def BookInstance.runStatusUpdates (bi : BookInstance) (ups : List String) :
    Option BookInstance :=
  ups.foldlM BookInstance.updateStatus bi

/-- Field-level validation of a `Book`: `title` (required, `max_length=200`),
`summary` (required, `max_length=1000`), `isbn` (required, `max_length=13`).
The nullable `author` and `language` references and the `genre` set carry no
field constraint, and no uniqueness constraint is declared on `isbn`. -/
def validBook (b : Book) : Bool :=
  b.title != "" && decide (b.title.length ≤ 200) &&
  b.summary != "" && decide (b.summary.length ≤ 1000) &&
  b.isbn != "" && decide (b.isbn.length ≤ 13)

/-- The list of `id` fields of the stored BookInstance rows. -/
def DB.instanceIds (db : DB) : List Nat :=
  db.bookinstances.map (fun bi => bi.id)

/-- Persisting a newly created `BookInstance` whose `id` was produced by the
`default=uuid.uuid4` generator: `primary_key=True` makes the engine reject a
row whose key already exists, so the insert fails (and stores nothing) on a
key collision or a validation failure. -/
def DB.addBookInstance (db : DB) (bi : BookInstance) : Option DB :=
  if bi.id ∈ db.instanceIds ∨ validBookInstance bi = false then none
  else some { db with bookinstances := bi :: db.bookinstances }

/-- A sequence of BookInstance creations; a failed insert stores nothing. -/
def DB.addBookInstances (db : DB) (bis : List BookInstance) : DB :=
  bis.foldl (fun d bi => (d.addBookInstance bi).getD d) db

/-- Comparison of nullable `due_back` dates, ascending with null first, as
the engine default is modelled for `BookInstance.Meta.ordering = ["due_back"]`. -/
def dueLE : Option Nat → Option Nat → Prop
  | none, _ => True
  | some _, none => False
  | some a, some b => a ≤ b

instance : DecidableRel dueLE := fun x y =>
  match x, y with
  | none, _ => isTrue trivial
  | some _, none => isFalse id
  | some a, some b => inferInstanceAs (Decidable (a ≤ b))

theorem dueLE_total (x y : Option Nat) : dueLE x y ∨ dueLE y x := by
  cases x <;> cases y <;> simp [dueLE] ; omega

theorem dueLE_trans {x y z : Option Nat} (h1 : dueLE x y) (h2 : dueLE y z) :
    dueLE x z := by
  cases x <;> cases y <;> cases z <;> simp_all [dueLE] ; omega

/-- The row order declared by `BookInstance.Meta.ordering = ["due_back"]`. -/
def instanceLE (x y : BookInstance) : Prop := dueLE x.due_back y.due_back

instance : DecidableRel instanceLE := fun x y =>
  inferInstanceAs (Decidable (dueLE x.due_back y.due_back))

instance : IsTotal BookInstance instanceLE := ⟨fun x y => dueLE_total x.due_back y.due_back⟩

instance : IsTrans BookInstance instanceLE := ⟨fun _ _ _ h1 h2 => dueLE_trans h1 h2⟩

/-- The row order declared by `Author.Meta.ordering = ["last_name", "first_name"]`:
lexicographic on last name then first name. -/
def authorLE (x y : Author) : Prop :=
  x.last_name < y.last_name ∨ (x.last_name = y.last_name ∧ x.first_name ≤ y.first_name)

instance : DecidableRel authorLE := fun x y => by
  unfold authorLE; infer_instance

theorem authorLE_total (x y : Author) : authorLE x y ∨ authorLE y x := by
  unfold authorLE
  rcases lt_trichotomy x.last_name y.last_name with h | h | h
  · exact Or.inl (Or.inl h)
  · rcases le_total x.first_name y.first_name with h' | h'
    · exact Or.inl (Or.inr ⟨h, h'⟩)
    · exact Or.inr (Or.inr ⟨h.symm, h'⟩)
  · exact Or.inr (Or.inl h)

theorem authorLE_trans {x y z : Author} (h1 : authorLE x y) (h2 : authorLE y z) :
    authorLE x z := by
  rcases h1 with h1 | ⟨h1, h1'⟩ <;> rcases h2 with h2 | ⟨h2, h2'⟩
  · exact Or.inl (lt_trans h1 h2)
  · exact Or.inl (h2 ▸ h1)
  · exact Or.inl (h1 ▸ h2)
  · exact Or.inr ⟨h1.trans h2, le_trans h1' h2'⟩

/-- The Author order lifted to keyed rows of the authors table. -/
def authorRecLE (x y : Nat × Author) : Prop := authorLE x.2 y.2

instance : DecidableRel authorRecLE := fun x y =>
  inferInstanceAs (Decidable (authorLE x.2 y.2))

instance : IsTotal (Nat × Author) authorRecLE := ⟨fun x y => authorLE_total x.2 y.2⟩

instance : IsTrans (Nat × Author) authorRecLE := ⟨fun _ _ _ h1 h2 => authorLE_trans h1 h2⟩

/-- Querying all BookInstance rows with no explicit ordering: the engine
returns them in the order declared by `Meta.ordering = ["due_back"]`. -/
def DB.allBookInstances (db : DB) : List BookInstance :=
  List.insertionSort instanceLE db.bookinstances

/-- Querying all Author rows with no explicit ordering: the engine returns
them in the order declared by `Meta.ordering = ["last_name", "first_name"]`. -/
def DB.allAuthors (db : DB) : List (Nat × Author) :=
  List.insertionSort authorRecLE db.authors

/-- Modelled from the spec: the URL configuration behind `django.urls.reverse`
(the `book-detail` and `author-detail` patterns) is not part of this
repository's source.  Per the spec it is a pure, side-effect-free derivation
of a canonical address from the view name and the argument list. -/
def reverse (viewname : String) (args : List String) : String :=
  "/catalog/" ++ viewname ++ "/" ++ String.intercalate "/" args

/-- Method `Book.get_absolute_url`:
`reverse("book-detail", args=[str(self.id)])`, over a keyed book row since
the implicit integer primary key `id` lives in the table. -/
def Book.get_absolute_url (rec : Nat × Book) : String :=
  reverse "book-detail" [toString rec.1]

/-- Method `Author.get_absolute_url`:
`reverse("author-detail", args=[str(self.id)])`. -/
def Author.get_absolute_url (rec : Nat × Author) : String :=
  reverse "author-detail" [toString rec.1]

/-- Concrete sample author row content. -/
def authEx : Author :=
  { first_name := "Frank", last_name := "Herbert",
    date_of_birth := some 100, date_of_death := some 200 }

/-- Concrete sample book row content, referencing author 1, genre 3 and
language 2. -/
def bkEx : Book :=
  { title := "Dune", author := some 1, summary := "Epic of Arrakis",
    isbn := "9780441013593", genre := [3], language := some 2 }

/-- Concrete sample book copy, referencing book 10. -/
def biEx : BookInstance :=
  { id := 7, book := some 10, imprint := "Ace", due_back := some 30, status := "a" }

/-- Concrete sample database holding one row of each entity. -/
def dbEx : DB :=
  { genres := [(3, { name := "Science Fiction" })],
    languages := [(2, { name := "English" })],
    authors := [(1, authEx)],
    books := [(10, bkEx)],
    bookinstances := [biEx] }

/-- A book copy whose nullable book reference is null. -/
def biNullEx : BookInstance :=
  { id := 5, book := none, imprint := "Penguin", due_back := none, status := "m" }

/-- A small database holding only the null-referencing book copy. -/
def dbNullEx : DB :=
  { genres := [], languages := [], authors := [], books := [],
    bookinstances := [biNullEx] }

/-- The empty database. -/
def dbEmptyEx : DB :=
  { genres := [], languages := [], authors := [], books := [], bookinstances := [] }

theorem onAuthorDelete_spec (aid : Nat) (b : Book) :
    (b.onAuthorDelete aid).author = (if b.author = some aid then none else b.author) ∧
    (b.onAuthorDelete aid).title = b.title ∧
    (b.onAuthorDelete aid).summary = b.summary ∧
    (b.onAuthorDelete aid).isbn = b.isbn ∧
    (b.onAuthorDelete aid).genre = b.genre ∧
    (b.onAuthorDelete aid).language = b.language := by
  unfold Book.onAuthorDelete
  split <;> simp_all

theorem onLanguageDelete_spec (lid : Nat) (b : Book) :
    (b.onLanguageDelete lid).language = (if b.language = some lid then none else b.language) ∧
    (b.onLanguageDelete lid).title = b.title ∧
    (b.onLanguageDelete lid).summary = b.summary ∧
    (b.onLanguageDelete lid).isbn = b.isbn ∧
    (b.onLanguageDelete lid).genre = b.genre ∧
    (b.onLanguageDelete lid).author = b.author := by
  unfold Book.onLanguageDelete
  split <;> simp_all

theorem onBookDelete_spec (bpk : Nat) (bi : BookInstance) :
    (bi.onBookDelete bpk).book = (if bi.book = some bpk then none else bi.book) ∧
    (bi.onBookDelete bpk).id = bi.id ∧
    (bi.onBookDelete bpk).imprint = bi.imprint ∧
    (bi.onBookDelete bpk).due_back = bi.due_back ∧
    (bi.onBookDelete bpk).status = bi.status := by
  unfold BookInstance.onBookDelete
  split <;> simp_all

/-- C1: deleting an Author, a Language or a Book does not delete the rows
that reference it.  Every dependent Book row (for an Author or Language
deletion) and every dependent BookInstance row (for a Book deletion) is
still present under its key, its foreign reference is set to null exactly
when it referenced the deleted row, and all its other fields are
unchanged. -/
theorem c1_delete_sets_null_and_preserves_dependents :
    (∀ (db : DB) (aid pk : Nat) (b : Book), (pk, b) ∈ db.books →
      ∃ b', (pk, b') ∈ (db.deleteAuthor aid).books ∧
        b'.author = (if b.author = some aid then none else b.author) ∧
        b'.title = b.title ∧ b'.summary = b.summary ∧ b'.isbn = b.isbn ∧
        b'.genre = b.genre ∧ b'.language = b.language) ∧
    (∀ (db : DB) (lid pk : Nat) (b : Book), (pk, b) ∈ db.books →
      ∃ b', (pk, b') ∈ (db.deleteLanguage lid).books ∧
        b'.language = (if b.language = some lid then none else b.language) ∧
        b'.title = b.title ∧ b'.summary = b.summary ∧ b'.isbn = b.isbn ∧
        b'.genre = b.genre ∧ b'.author = b.author) ∧
    (∀ (db : DB) (bpk : Nat) (bi : BookInstance), bi ∈ db.bookinstances →
      ∃ bi', bi' ∈ (db.deleteBook bpk).bookinstances ∧
        bi'.book = (if bi.book = some bpk then none else bi.book) ∧
        bi'.id = bi.id ∧ bi'.imprint = bi.imprint ∧
        bi'.due_back = bi.due_back ∧ bi'.status = bi.status) := by
  refine ⟨?_, ?_, ?_⟩
  · intro db aid pk b hmem
    exact ⟨b.onAuthorDelete aid,
      List.mem_map_of_mem (fun p => (p.1, Book.onAuthorDelete aid p.2)) hmem,
      onAuthorDelete_spec aid b⟩
  · intro db lid pk b hmem
    exact ⟨b.onLanguageDelete lid,
      List.mem_map_of_mem (fun p => (p.1, Book.onLanguageDelete lid p.2)) hmem,
      onLanguageDelete_spec lid b⟩
  · intro db bpk bi hmem
    exact ⟨bi.onBookDelete bpk,
      List.mem_map_of_mem (BookInstance.onBookDelete bpk) hmem,
      onBookDelete_spec bpk bi⟩

/-- Witness for C1 at the concrete sample database. -/
theorem c1_witness :
    ((10, bkEx) ∈ dbEx.books ∧
      ∃ b', (10, b') ∈ (dbEx.deleteAuthor 1).books ∧
        b'.author = (if bkEx.author = some 1 then none else bkEx.author) ∧
        b'.title = bkEx.title ∧ b'.summary = bkEx.summary ∧ b'.isbn = bkEx.isbn ∧
        b'.genre = bkEx.genre ∧ b'.language = bkEx.language) ∧
    ((10, bkEx) ∈ dbEx.books ∧
      ∃ b', (10, b') ∈ (dbEx.deleteLanguage 2).books ∧
        b'.language = (if bkEx.language = some 2 then none else bkEx.language) ∧
        b'.title = bkEx.title ∧ b'.summary = bkEx.summary ∧ b'.isbn = bkEx.isbn ∧
        b'.genre = bkEx.genre ∧ b'.author = bkEx.author) ∧
    (biEx ∈ dbEx.bookinstances ∧
      ∃ bi', bi' ∈ (dbEx.deleteBook 10).bookinstances ∧
        bi'.book = (if biEx.book = some 10 then none else biEx.book) ∧
        bi'.id = biEx.id ∧ bi'.imprint = biEx.imprint ∧
        bi'.due_back = biEx.due_back ∧ bi'.status = biEx.status) :=
  ⟨⟨by decide, c1_delete_sets_null_and_preserves_dependents.1 dbEx 1 10 bkEx (by decide)⟩,
   ⟨by decide, c1_delete_sets_null_and_preserves_dependents.2.1 dbEx 2 10 bkEx (by decide)⟩,
   ⟨by decide, c1_delete_sets_null_and_preserves_dependents.2.2 dbEx 10 biEx (by decide)⟩⟩

/-- C3: a BookInstance created with no status supplied persists with status
`"m"` (Maintenance), the declared default. -/
theorem c3_default_status_is_maintenance :
    ∀ (id : Nat) (book : Option Nat) (imprint : String) (due : Option Nat)
      (bi : BookInstance),
      BookInstance.create id book imprint due none = some bi → bi.status = "m" := by
  intro id book imprint due bi h
  simp only [BookInstance.create] at h
  split at h
  · injection h with h'
    subst h'
    rfl
  · exact Option.noConfusion h

/-- Witness for C3 at a concrete creation. -/
theorem c3_witness :
    BookInstance.create 7 none "Ace" none none =
      some { id := 7, book := none, imprint := "Ace", due_back := none, status := "m" } ∧
    ({ id := 7, book := none, imprint := "Ace", due_back := none,
       status := "m" } : BookInstance).status = "m" :=
  ⟨by decide, c3_default_status_is_maintenance 7 none "Ace" none _ (by decide)⟩

/-- C4: Genre and Language render as their `name`, Book renders as its
`title`, and Author renders as last name, comma, space, first name. -/
theorem c4_renderings :
    ∀ (g : Genre) (l : Language) (b : Book) (a : Author),
      Genre.toStr g = g.name ∧ Language.toStr l = l.name ∧
      Book.toStr b = b.title ∧
      Author.toStr a = a.last_name ++ ", " ++ a.first_name :=
  fun _ _ _ _ => ⟨rfl, rfl, rfl, rfl⟩

/-- Counterexample to C5 as stated: at a BookInstance whose nullable book
reference is null, the rendering returns no string at all (the attribute
read on the null reference fails, recorded as `none`), so the rendering does
not produce the claimed string for every value of the book reference. -/
theorem c5_counterexample :
    BookInstance.toStr dbNullEx biNullEx = none := rfl

/-- C5 (amended): whenever the nullable book reference is non-null and
resolves to a stored Book, the rendering returns the identifier, a space,
and the parent Book's title in parentheses. -/
theorem c5_renders_id_and_parent_title :
    ∀ (db : DB) (bi : BookInstance) (pk : Nat) (b : Book),
      bi.book = some pk → db.getBook pk = some b →
      BookInstance.toStr db bi =
        some (toString bi.id ++ " (" ++ b.title ++ ")") := by
  intro db bi pk b h1 h2
  simp [BookInstance.toStr, h1, h2]

/-- Witness for the amended C5 at the concrete sample database. -/
theorem c5_witness :
    biEx.book = some 10 ∧ dbEx.getBook 10 = some bkEx ∧
    BookInstance.toStr dbEx biEx =
      some (toString biEx.id ++ " (" ++ bkEx.title ++ ")") :=
  ⟨rfl, by decide, c5_renders_id_and_parent_title dbEx biEx 10 bkEx rfl (by decide)⟩

/-- C10: for every BookInstance whose book reference is null, the rendering
operation fails instead of returning a string: the dereference of the null
book reference yields no title, recorded as `none`. -/
theorem c10_render_fails_on_null_book :
    ∀ (db : DB) (bi : BookInstance), bi.book = none →
      BookInstance.toStr db bi = none := by
  intro db bi h
  simp [BookInstance.toStr, h]

/-- Witness for C10 at the concrete null-referencing book copy. -/
theorem c10_witness :
    biNullEx.book = none ∧ BookInstance.toStr dbNullEx biNullEx = none :=
  ⟨rfl, c10_render_fails_on_null_book dbNullEx biNullEx rfl⟩

theorem create_valid {id : Nat} {book : Option Nat} {imprint : String}
    {due : Option Nat} {st : Option String} {bi : BookInstance}
    (h : BookInstance.create id book imprint due st = some bi) :
    validBookInstance bi = true := by
  simp only [BookInstance.create] at h
  split at h
  · injection h with h'
    subst h'
    assumption
  · exact Option.noConfusion h

theorem updateStatus_valid {bi : BookInstance} {s : String} {bi' : BookInstance}
    (h : BookInstance.updateStatus bi s = some bi') :
    validBookInstance bi' = true := by
  simp only [BookInstance.updateStatus] at h
  split at h
  · injection h with h'
    subst h'
    assumption
  · exact Option.noConfusion h

theorem runStatusUpdates_valid : ∀ {ups : List String} {bi bi' : BookInstance},
    validBookInstance bi = true →
    BookInstance.runStatusUpdates bi ups = some bi' →
    validBookInstance bi' = true := by
  intro ups
  induction ups with
  | nil =>
    intro bi bi' hv h
    simp only [BookInstance.runStatusUpdates, List.foldlM_nil, Option.pure_def,
      Option.some.injEq] at h
    subst h
    exact hv
  | cons u us ih =>
    intro bi bi' hv h
    simp only [BookInstance.runStatusUpdates, List.foldlM_cons, Option.bind_eq_bind,
      Option.bind_eq_some] at h
    obtain ⟨mid, h1, h2⟩ := h
    exact ih (updateStatus_valid h1) h2

theorem validBookInstance_status {bi : BookInstance}
    (h : validBookInstance bi = true) : validStatus bi.status = true := by
  simp only [validBookInstance, Bool.and_eq_true] at h
  exact h.1.1

theorem status_mem_of_validStatus {s : String} (h : validStatus s = true) :
    s = "m" ∨ s = "o" ∨ s = "a" ∨ s = "r" ∨ s = "" := by
  simp only [validStatus, LOAN_STATUS, Bool.and_eq_true, Bool.or_eq_true,
    beq_iff_eq, decide_eq_true_eq, List.any_cons, List.any_nil, Bool.or_false] at h
  tauto

/-- Counterexample to C2 as stated: `blank=True` on the status field makes
the schema accept a create that explicitly supplies the empty string, and
the persisted status is then not one of the four enumerated codes. -/
theorem c2_counterexample :
    BookInstance.create 7 none "Ace" none (some "") =
      some { id := 7, book := none, imprint := "Ace", due_back := none, status := "" } ∧
    ¬(("" : String) = "m" ∨ ("" : String) = "o" ∨ ("" : String) = "a" ∨
      ("" : String) = "r") := by
  decide

/-- C2 (amended): after any accepted create followed by any sequence of
accepted status updates, the status is one of the four enumerated codes or
the blank string that `blank=True` additionally accepts. -/
theorem c2_status_in_choices_or_blank :
    ∀ (id : Nat) (book : Option Nat) (imprint : String) (due : Option Nat)
      (st0 : Option String) (ups : List String) (bi0 bi1 : BookInstance),
      BookInstance.create id book imprint due st0 = some bi0 →
      BookInstance.runStatusUpdates bi0 ups = some bi1 →
      bi1.status = "m" ∨ bi1.status = "o" ∨ bi1.status = "a" ∨
        bi1.status = "r" ∨ bi1.status = "" := by
  intro id book imprint due st0 ups bi0 bi1 hc hr
  exact status_mem_of_validStatus
    (validBookInstance_status (runStatusUpdates_valid (create_valid hc) hr))

/-- A created sample copy with status `"a"`. -/
def biC2a : BookInstance :=
  { id := 7, book := none, imprint := "Ace", due_back := none, status := "a" }

/-- The sample copy after an accepted update to status `"o"`. -/
def biC2o : BookInstance :=
  { id := 7, book := none, imprint := "Ace", due_back := none, status := "o" }

/-- Witness for the amended C2 at a concrete create and update sequence. -/
theorem c2_witness :
    BookInstance.create 7 none "Ace" none (some "a") = some biC2a ∧
    BookInstance.runStatusUpdates biC2a ["o"] = some biC2o ∧
    (biC2o.status = "m" ∨ biC2o.status = "o" ∨ biC2o.status = "a" ∨
      biC2o.status = "r" ∨ biC2o.status = "") :=
  ⟨by decide, by decide,
   c2_status_in_choices_or_blank 7 none "Ace" none (some "a") ["o"] biC2a biC2o
     (by decide) (by decide)⟩

/-- C6: querying all BookInstance rows yields a permutation of the stored
rows sorted by due-back date ascending, and querying all Author rows yields
a permutation of the stored rows sorted by last name then first name. -/
theorem c6_default_ordering :
    ∀ db : DB,
      List.Sorted instanceLE db.allBookInstances ∧
      List.Perm db.allBookInstances db.bookinstances ∧
      List.Sorted authorRecLE db.allAuthors ∧
      List.Perm db.allAuthors db.authors :=
  fun db =>
    ⟨List.sorted_insertionSort instanceLE db.bookinstances,
     List.perm_insertionSort instanceLE db.bookinstances,
     List.sorted_insertionSort authorRecLE db.authors,
     List.perm_insertionSort authorRecLE db.authors⟩

/-- A book whose isbn has fewer than 13 characters. -/
def bkShortIsbn : Book :=
  { title := "Dune", author := none, summary := "Epic", isbn := "123",
    genre := [], language := none }

/-- Counterexample to C7 as stated: `CharField(max_length=13)` only bounds
the length, so the schema accepts a book whose isbn is not 13 characters
long. -/
theorem c7_counterexample :
    validBook bkShortIsbn = true ∧ bkShortIsbn.isbn.length ≠ 13 := by
  decide

/-- C7 (amended): for every Book accepted by the schema, the isbn is a
required, non-empty string of at most 13 characters; exact length 13 and
global uniqueness are not enforced. -/
theorem c7_isbn_required_at_most_13 :
    ∀ b : Book, validBook b = true → b.isbn ≠ "" ∧ b.isbn.length ≤ 13 := by
  intro b h
  simp only [validBook, Bool.and_eq_true, bne_iff_ne, ne_eq,
    decide_eq_true_eq] at h
  exact ⟨h.1.2, h.2⟩

/-- Witness for the amended C7 at the concrete sample book. -/
theorem c7_witness :
    validBook bkEx = true ∧ (bkEx.isbn ≠ "" ∧ bkEx.isbn.length ≤ 13) :=
  ⟨by decide, c7_isbn_required_at_most_13 bkEx (by decide)⟩

/-- C8: starting from any database whose stored BookInstance ids are
pairwise distinct, any sequence of creations keeps them pairwise distinct:
`primary_key=True` makes the engine reject a colliding generated id, so two
distinct persisted BookInstance rows never share an id. -/
theorem c8_instance_ids_pairwise_distinct :
    ∀ (db : DB) (bis : List BookInstance),
      List.Pairwise (fun a b => a ≠ b) db.instanceIds →
      List.Pairwise (fun a b => a ≠ b) (db.addBookInstances bis).instanceIds := by
  intro db bis
  induction bis generalizing db with
  | nil => exact fun h => h
  | cons bi bis ih =>
    intro h
    have hmid : List.Pairwise (fun a b => a ≠ b)
        ((db.addBookInstance bi).getD db).instanceIds := by
      unfold DB.addBookInstance
      split
      · exact h
      · rename_i hcond
        push_neg at hcond
        show List.Pairwise (fun a b => a ≠ b) (bi.id :: db.instanceIds)
        refine List.Pairwise.cons ?_ h
        intro x hx he
        exact hcond.1 (by rw [he]; exact hx)
    exact ih ((db.addBookInstance bi).getD db) hmid

/-- A first created sample copy. -/
def biC8a : BookInstance :=
  { id := 1, book := none, imprint := "A", due_back := none, status := "m" }

/-- A second created sample copy with a distinct generated id. -/
def biC8b : BookInstance :=
  { id := 2, book := none, imprint := "B", due_back := none, status := "m" }

/-- Witness for C8: two creations into the empty database. -/
theorem c8_witness :
    List.Pairwise (fun a b => a ≠ b) dbEmptyEx.instanceIds ∧
    List.Pairwise (fun a b => a ≠ b)
      ((dbEmptyEx.addBookInstances [biC8a, biC8b]).instanceIds) :=
  ⟨List.Pairwise.nil,
   c8_instance_ids_pairwise_distinct dbEmptyEx [biC8a, biC8b] List.Pairwise.nil⟩

/-- C9: the derived detail-view address of a Book or Author is a pure
function of the persisted identifier alone: two rows of the same entity
under the same primary key yield equal addresses whatever their other
fields, and the derivation touches no database state. -/
theorem c9_get_absolute_url_pure_in_id :
    ∀ (pk : Nat) (b1 b2 : Book) (a1 a2 : Author),
      Book.get_absolute_url (pk, b1) = Book.get_absolute_url (pk, b2) ∧
      Author.get_absolute_url (pk, a1) = Author.get_absolute_url (pk, a2) :=
  fun _ _ _ _ _ => ⟨rfl, rfl⟩

end LocalLibrary
